import Mathlib

/-!
Shallow embedding of the `entity_aspect_analysis` pipeline.

The repository has five Python modules:
  * `helper_funcs.py` — the completion client wrapping the OpenAI chat API;
  * `input_data.py` — CSV loading into a pandas DataFrame (pure I/O glue);
  * `model_entity_aspect_generation.py` — prompt construction, completion call,
    literal parsing, and extraction of the (entity, aspect) prediction;
  * `model_evaluation.py` — cosine-similarity scoring and threshold acceptance;
  * `main.py` — the orchestrator `flow`.

External collaborators (the OpenAI endpoint, `ast.literal_eval`, the
sentence-embedding model and `util.cos_sim`) are third-party code, not part of
this repository; they are modelled as explicit oracle parameters:
  * `create : CompletionRequest → CompletionResponse` for
    `client.chat.completions.create`;
  * `parse : String → Option ReviewAnalysis` for `ast.literal_eval` applied to
    the completion text (`none` models the `ValueError`/`SyntaxError` raised on
    a malformed literal);
  * `encode : List String → ε` and `cos_sim : ε → ε → ℕ → ℕ → ℚ` for
    `SentenceTransformer.encode` and `sentence_transformers.util.cos_sim`
    (the matrix is read through its entry function).
Python floats are modelled as rationals (`ℚ`): the code performs only exact
comparisons (`>=`) on them, which ℚ reproduces faithfully.  Python runtime
errors (`KeyError`, `IndexError`, parse failures) are modelled with `Except`.
-/

/-! ## helper_funcs.py -/

/-- Chat roles used in the message transcript. -/
inductive Role where
  | system
  | user
  | assistant
deriving DecidableEq

/-- One role-tagged chat message, `{'role': ..., 'content': ...}`. -/
structure Message where
  role : Role
  content : String
deriving DecidableEq

/-- The `ResponseFormat` enum of `helper_funcs.py`: free text vs. structured
JSON object. -/
inductive ResponseFormat where
  | TEXT
  | JSON_OBJECT
deriving DecidableEq

/-- The argument bundle passed to `client.chat.completions.create`. -/
structure CompletionRequest where
  messages : List Message
  model : String
  frequency_penalty : ℚ
  n : ℕ
  temperature : ℚ
  response_format : ResponseFormat
deriving DecidableEq

/-- One returned choice; `content` models `choice.message.content`. -/
structure Choice where
  content : String
deriving DecidableEq

/-- The API response: a list of choices. -/
structure CompletionResponse where
  choices : List Choice
deriving DecidableEq

/-- Default `model` parameter of `get_completion_from_messages`. -/
def default_model : String := "gpt-3.5-turbo-1106"

/-- Default `frequency_penalty` parameter. -/
def default_frequency_penalty : ℚ := 0

/-- Default `n` (number of samples) parameter. -/
def default_n : ℕ := 1

/-- Default `temperature` parameter. -/
def default_temperature : ℚ := 0

/-- Default `response_format` parameter. -/
def default_response_format : ResponseFormat := ResponseFormat.TEXT

/-- The single request record that `get_completion_from_messages` hands to
`client.chat.completions.create`. -/
def buildRequest (messages : List Message) (model : String)
    (frequency_penalty : ℚ) (n : ℕ) (temperature : ℚ)
    (response_format : ResponseFormat) : CompletionRequest :=
  ⟨messages, model, frequency_penalty, n, temperature, response_format⟩

/-- `get_completion_from_messages` of `helper_funcs.py`: issue one completion
request and return `response.choices[0].message.content`.  The indexing
`choices[0]` raises `IndexError` on an empty list, modelled by `none`. -/
def get_completion_from_messages (create : CompletionRequest → CompletionResponse)
    (messages : List Message) (model : String) (frequency_penalty : ℚ)
    (n : ℕ) (temperature : ℚ) (response_format : ResponseFormat) : Option String :=
  let response := create (buildRequest messages model frequency_penalty n
    temperature response_format)
  (response.choices.head?).map Choice.content

/-! ## input_data.py / the pandas DataFrame -/

/-- One row of the input CSV: columns `review`, `true_entity`, `true_aspect`. -/
structure Row where
  review : String
  true_entity : String
  true_aspect : String
deriving DecidableEq

/-- The tabular structure returned by `load_data`; only its list of rows is
relevant to the pipeline. -/
structure DataFrame where
  rows : List Row
deriving DecidableEq

/-- Label-0 access (`df.loc[0, col]` / `df[col][0]`): the first row if it
exists.  With pandas' default integer index both spellings read row 0 and
raise `KeyError` when the frame is empty. -/
def DataFrame.loc0 (df : DataFrame) : Option Row :=
  df.rows.head?

/-! ## model_entity_aspect_generation.py -/

/-- Errors the generation stage can raise; each constructor names the Python
exception it models. -/
inductive PipelineError where
  /-- `KeyError` from `df.loc[0, ...]` on an empty frame. -/
  | locKeyError
  /-- `IndexError` from `response.choices[0]` on an empty choice list. -/
  | choicesIndexError
  /-- `ValueError`/`SyntaxError` from `ast.literal_eval` on a malformed literal. -/
  | parseError
  /-- `KeyError` from `self.review_analysis[k]`. -/
  | keyError (k : String)
  /-- `IndexError` from `...["aspect"][0]` on an empty aspect list. -/
  | indexError
deriving DecidableEq

/-- One value of the parsed completion mapping:
`{"named_entity": str, "aspect": List[str]}`. -/
structure AnalysisEntry where
  named_entity : String
  aspect : List String
deriving DecidableEq

/-- The parsed completion: a mapping from stringified integer keys to entries,
as produced by `ast.literal_eval`.  A Python dict has unique keys, so
association-list lookup is a faithful model. -/
abbrev ReviewAnalysis := List (String × AnalysisEntry)

/-- Dict lookup `review_analysis[k]`. -/
def ReviewAnalysis.lookup (ra : ReviewAnalysis) (k : String) : Option AnalysisEntry :=
  List.lookup k ra

/- The prompt template strings of `order_chat_messages`.  They are Python
triple-quoted literals; here the leading indentation is normalised and the
backslash line continuations are merged, neither of which any claim inspects.
Literal braces are written with `\x7b`/`\x7d` escapes and apostrophes with
`\x27`. -/

/-- The `system_prompt` template. -/
def system_prompt : String :=
  "\nYou are an NLP customer review analyzer who knows how to find what named entity the review is addressing and the aspect/opinion about this named entity.\n"

/-- The `initial_user_prompt` template stating the extraction rules. -/
def initial_user_prompt : String :=
  "\nYour task is to extract both the entity and aspect/opinion that are literally mentioned in the review. /\n\nPay attention to the following (important):\n- The entity and aspect/opinion MUST be explicitly mentioned in the review. Do NOT infer by yourself.\n- The entity can be more than one word long (e.g., \"Chinese restaurant\")\n- The aspect/opinion can be more than one word long (e.g., \"delicious and fantastic\", \"amazingly good\")\n- There could be more than one entity-aspect pair in the same review (e.g., \"The pizza was terrific but the music was bad\" -> \x7bpizza: terrific, music: bad\x7d)\n- If you can\x27t find the entity or aspect/opinion, return \"None\".\n- The review can be a full sentence but could also simply be a phrase or utterance.\n- Return the response in the following JSON format: \x7bincremental number: \x7b\"named_entity\": str, \"aspect\": List[str]\x7d\n\nEntity - what it is that the customer is referring to in his/her review (e.g., \"Chinese restaurant\", \"service\", \"meal\", \"waitress\", \"food\").\nAspect (opinion) - how the entity is described by the customer (e.g., \"great\", \"amazing\", \"took too much time to prepare\", \"patient\", \"superb\").\n"

/-- The first assistant acknowledgment template, `assistant_res_1`. -/
def assistant_res_1 : String :=
  "\nI acknowledge that I am a customer review analyzer who knows how to find search review for and find both the named entity mentioned in the review and the aspect/opinion addressed to the named entity. I understand your request and will accordingly look for and find both the named entity and the aspect/opinion\n"

/-- The `user_clarification_prompt` template holding the twelve few-shot
examples. -/
def user_clarification_prompt : String :=
  "\nBelow are a few examples for you to learn from (few-shot learning):\n\"The food is decent\" --> food (entity), decent (aspect)\n\"The Steak Tartare was splendid\" --> Steak Tartare (entity), splendid (aspect)\n\"The service is top-notch\" --> service (entity), top-notch (aspect)\n\"I had the duck breast special on my last visit and it was incredible.\" --> duck breast special (entity), incredible (aspect)\n\"The hostess was extremely rude and offensive\" --> hostess (entity), extremely rude and offensive (aspect)\n\"Chow fun was dry ; pork shu mai was more than usually greasy and had to share a table with loud and rude family.\" --> Chow fun (entity), dry (aspect); pork shu mai (entity), more than usually greasy (aspect); table (entity), had to share with loud and rude family (aspect)\n\"The waiter took his time with the food\" --> waiter (entity), took his time with the food (aspect)\n\"Ambience is delightful, service impeccable.\" --> ambience (entity), delightful (aspect); service (entity) impeccable (aspect)\n\"I won\x27t come back again\" --> None (entity), None (aspect)\n\"We, there were four of us, arrived at noon - the place was empty - and the staff acted like we were imposing on them and they were very rude.\" --> place (entity), empty (aspect); staff (entity) acted like we were imposing on them (aspect); staff (entity) very rude (aspect)\nThe food is very average . . .the Thai fusion stuff is a bit too sweet , every thing they serve is too sweet here. --> food (entity), very average (aspect); Thai fusion stuff (entity), a bit too sweet (aspect); everything they serve (entity), too sweet (aspect);\nThe only thing I moderately enjoyed was their Grilled Chicken special with Edamame Puree. --> Grilled Chicken special with Edamame Puree (entity), moderately enjoyed (aspect);\n"

/-- The second assistant acknowledgment template, `assistant_res_2`. -/
def assistant_res_2 : String :=
  "\nPlease provide the review you want me to analyze.\n"

/-- The f-string wrapping of the review text:
`self.review = f"\n        {df.loc[0,'review']}\n        "`. -/
def reviewString (review : String) : String :=
  "\n        " ++ review ++ "\n        "

/-- The six-message transcript assigned to `self.messages`, as a function of
the (already wrapped) review string. -/
def order_messages (review : String) : List Message :=
  [ ⟨Role.system, system_prompt⟩,
    ⟨Role.user, initial_user_prompt⟩,
    ⟨Role.assistant, assistant_res_1⟩,
    ⟨Role.user, user_clarification_prompt⟩,
    ⟨Role.assistant, assistant_res_2⟩,
    ⟨Role.user, review⟩ ]

/-- The request the extraction stage submits: the six-message transcript with
the client's defaults for model, frequency penalty, sample count and
temperature, and the JSON-object response format. -/
def extractionRequest (review : String) : CompletionRequest :=
  buildRequest (order_messages review) default_model default_frequency_penalty
    default_n default_temperature ResponseFormat.JSON_OBJECT

/-- `ModelEntityAspectGeneration.order_chat_messages`: read the review from
row 0, build the six-message transcript, call the completion client with the
JSON-object response format, and parse the returned text with
`ast.literal_eval`.  Returns (`self.review`, `self.messages`,
`self.review_analysis`). -/
def order_chat_messages (create : CompletionRequest → CompletionResponse)
    (parse : String → Option ReviewAnalysis) (df : DataFrame) :
    Except PipelineError (String × List Message × ReviewAnalysis) :=
  match df.loc0 with
  | none => Except.error PipelineError.locKeyError
  | some r0 =>
    let review := reviewString r0.review
    let messages := order_messages review
    match get_completion_from_messages create messages default_model
        default_frequency_penalty default_n default_temperature
        ResponseFormat.JSON_OBJECT with
    | none => Except.error PipelineError.choicesIndexError
    | some review_analysis_text =>
      match parse review_analysis_text with
      | none => Except.error PipelineError.parseError
      | some review_analysis => Except.ok (review, messages, review_analysis)

/-- `ModelEntityAspectGeneration.extract_true_val`: the true entity and aspect
of row 0, each wrapped in a singleton list. -/
def extract_true_val (df : DataFrame) :
    Except PipelineError (List String × List String) :=
  match df.loc0 with
  | none => Except.error PipelineError.locKeyError
  | some r0 => Except.ok ([r0.true_entity], [r0.true_aspect])

/-- `ModelEntityAspectGeneration.extract_tuple`: read key `"1"` of the parsed
mapping, take its `named_entity` and the first element of its `aspect` list.
A missing key is a `KeyError`; an empty aspect list is an `IndexError`. -/
def extract_tuple (review_analysis : ReviewAnalysis) :
    Except PipelineError (String × String) :=
  match review_analysis.lookup "1" with
  | none => Except.error (PipelineError.keyError "1")
  | some entry =>
    match entry.aspect with
    | [] => Except.error PipelineError.indexError
    | predicted_aspect :: _ => Except.ok (entry.named_entity, predicted_aspect)

/-- The attribute record of a fully constructed
`ModelEntityAspectGeneration` object. -/
structure ModelEntityAspectGeneration where
  df : DataFrame
  review : String
  messages : List Message
  review_analysis : ReviewAnalysis
  true_entity : List String
  true_aspect : List String
  predicted_entity : List String
  predicted_aspect : List String
  generation : String × String
deriving DecidableEq

/-- `ModelEntityAspectGeneration.__init__`: run `order_chat_messages`,
`extract_true_val` and `extract_tuple` in order; any raised error aborts
construction. -/
def ModelEntityAspectGeneration.init
    (create : CompletionRequest → CompletionResponse)
    (parse : String → Option ReviewAnalysis) (df : DataFrame) :
    Except PipelineError ModelEntityAspectGeneration :=
  match order_chat_messages create parse df with
  | Except.error e => Except.error e
  | Except.ok (review, messages, review_analysis) =>
    match extract_true_val df with
    | Except.error e => Except.error e
    | Except.ok (true_entity, true_aspect) =>
      match extract_tuple review_analysis with
      | Except.error e => Except.error e
      | Except.ok (predicted_entity, predicted_aspect) =>
        Except.ok ⟨df, review, messages, review_analysis, true_entity,
          true_aspect, [predicted_entity], [predicted_aspect],
          (predicted_entity, predicted_aspect)⟩

/-! ## model_evaluation.py -/

/-- The attribute record of a fully constructed `ModelEvaluation` object. -/
structure ModelEvaluation where
  df : DataFrame
  model_gen_object : ModelEntityAspectGeneration
  threshold : ℚ
  entity_cosine_score : ℚ
  aspect_cosine_score : ℚ
  keep_entity_prediction : Bool
  keep_aspect_prediction : Bool
deriving DecidableEq

/-- Default `threshold_score` parameter of `ModelEvaluation.__init__`. -/
def default_threshold_score : ℚ := 0.85

/-- `ModelEvaluation.extract_cosine_score`: encode the two one-element string
lists and take the scalar at position (0, 0) of the cosine-similarity matrix
`util.cos_sim(embeddings_true, embeddings_pred)`.  `encode` and `cos_sim` are
the external embedding model and similarity routine. -/
def extract_cosine_score {ε : Type} (encode : List String → ε)
    (cos_sim : ε → ε → ℕ → ℕ → ℚ)
    (true_val : List String) (predicted_val : List String) : ℚ :=
  let embeddings_true := encode true_val
  let embeddings_pred := encode predicted_val
  cos_sim embeddings_true embeddings_pred 0 0

/-- `ModelEvaluation.invoke_extract_cosine_score_logic`: store the entity and
aspect cosine scores, each computed from its own true/predicted pair. -/
def ModelEvaluation.invoke_extract_cosine_score_logic {ε : Type}
    (encode : List String → ε) (cos_sim : ε → ε → ℕ → ℕ → ℚ)
    (self : ModelEvaluation) : ModelEvaluation :=
  { self with
    entity_cosine_score := extract_cosine_score encode cos_sim
      self.model_gen_object.true_entity self.model_gen_object.predicted_entity,
    aspect_cosine_score := extract_cosine_score encode cos_sim
      self.model_gen_object.true_aspect self.model_gen_object.predicted_aspect }

/-- `ModelEvaluation.evaluate`: `True` when the cosine score meets or exceeds
the stored threshold, `False` otherwise. -/
def ModelEvaluation.evaluate (self : ModelEvaluation) (cosine_score : ℚ) : Bool :=
  if cosine_score ≥ self.threshold then true else false

/-- `ModelEvaluation.invoke_evaluation_logic`: store the two keep-flags by
evaluating each stored score. -/
def ModelEvaluation.invoke_evaluation_logic (self : ModelEvaluation) :
    ModelEvaluation :=
  { self with
    keep_entity_prediction := self.evaluate self.entity_cosine_score,
    keep_aspect_prediction := self.evaluate self.aspect_cosine_score }

/-- `ModelEvaluation.__init__`: store the references and the threshold, zero
the scores (the keep-flags start as `None` in Python and are overwritten
before construction ends; `false` is the placeholder here), then run
`invoke_extract_cosine_score_logic` and `invoke_evaluation_logic`. -/
def ModelEvaluation.init {ε : Type} (encode : List String → ε)
    (cos_sim : ε → ε → ℕ → ℕ → ℚ) (df : DataFrame)
    (model_gen_object : ModelEntityAspectGeneration)
    (threshold_score : ℚ) : ModelEvaluation :=
  let self : ModelEvaluation :=
    ⟨df, model_gen_object, threshold_score, 0, 0, false, false⟩
  let self := self.invoke_extract_cosine_score_logic encode cos_sim
  self.invoke_evaluation_logic

/-- `ModelEvaluation(df, model_gen_object)` with the `threshold_score`
argument omitted, as `main.flow` calls it: the default 0.85 applies. -/
def ModelEvaluation.initDefault {ε : Type} (encode : List String → ε)
    (cos_sim : ε → ε → ℕ → ℕ → ℚ) (df : DataFrame)
    (model_gen_object : ModelEntityAspectGeneration) : ModelEvaluation :=
  ModelEvaluation.init encode cos_sim df model_gen_object default_threshold_score

/-! ## main.py -/

/-- `main.flow` after `load_data`: wire the loaded DataFrame through
generation and evaluation and return the evaluation object. -/
def flow {ε : Type} (create : CompletionRequest → CompletionResponse)
    (parse : String → Option ReviewAnalysis) (encode : List String → ε)
    (cos_sim : ε → ε → ℕ → ℕ → ℚ) (df : DataFrame) :
    Except PipelineError ModelEvaluation := do
  let model_gen_obj ← ModelEntityAspectGeneration.init create parse df
  pure (ModelEvaluation.initDefault encode cos_sim df model_gen_obj)

/-! ## Concrete objects used by witnesses and counterexamples -/

/-- An empty DataFrame. -/
def emptyDF : DataFrame := ⟨[]⟩

/-- A one-row DataFrame with the spec's end-to-end scenario values. -/
def sampleDF : DataFrame := ⟨[⟨"The food is decent", "food", "decent"⟩]⟩

/-- A concrete generation object (fields as a freshly constructed object for
the sample row whose completion was `{"1": {"named_entity": "food",
"aspect": ["decent"]}}`). -/
def sampleGen : ModelEntityAspectGeneration :=
  ⟨sampleDF, reviewString "The food is decent",
    order_messages (reviewString "The food is decent"),
    [("1", ⟨"food", ["decent"]⟩)],
    ["food"], ["decent"], ["food"], ["decent"], ("food", "decent")⟩

/-- A trivial embedding oracle used to instantiate theorems at `ε = Unit`. -/
def unitEncode : List String → Unit := fun _ => ()

/-- A trivial cosine-similarity oracle whose every matrix entry is 1. -/
def oneCosSim : Unit → Unit → ℕ → ℕ → ℚ := fun _ _ _ _ => 1

/-- The sample completion text of the spec end-to-end scenario. -/
def sampleCompletionText : String :=
  "\x7b\"1\": \x7b\"named_entity\": \"food\", \"aspect\": [\"decent\"]\x7d\x7d"

/-- A completion oracle answering every request with the sample completion. -/
def sampleCreate : CompletionRequest → CompletionResponse :=
  fun _ => ⟨[⟨sampleCompletionText⟩]⟩

/-- A parse oracle mapping the sample completion text to its parsed mapping
and failing on everything else. -/
def sampleParse : String → Option ReviewAnalysis :=
  fun s =>
    if s = sampleCompletionText then some [("1", ⟨"food", ["decent"]⟩)]
    else none

/-- A parse oracle that fails on every input (a completion that is never a
valid literal mapping). -/
def failParse : String → Option ReviewAnalysis := fun _ => none

/-- A parse oracle whose parsed mapping lacks key `"1"`. -/
def noKeyParse : String → Option ReviewAnalysis :=
  fun _ => some [("2", ⟨"service", ["slow"]⟩)]

/-- A parse oracle whose entry at key `"1"` has an empty aspect list. -/
def emptyAspectParse : String → Option ReviewAnalysis :=
  fun _ => some [("1", ⟨"food", []⟩)]

/-- A variant of `sampleGen` with different aspect fields but the same entity
fields. -/
def sampleGen2 : ModelEntityAspectGeneration :=
  ⟨sampleDF, reviewString "The food is decent",
    order_messages (reviewString "The food is decent"),
    [("1", ⟨"food", ["slow"]⟩)],
    ["food"], ["slow"], ["food"], ["slow"], ("food", "slow")⟩

/-- A concrete evaluation constructed with threshold 0. -/
def zeroThresholdEval : ModelEvaluation :=
  ModelEvaluation.init unitEncode oneCosSim sampleDF sampleGen 0

/-- A concrete evaluation constructed with threshold 2 (strictly above 1). -/
def twoThresholdEval : ModelEvaluation :=
  ModelEvaluation.init unitEncode oneCosSim sampleDF sampleGen 2

/-- The observable outcome of the generation stage: every attribute except the
stored DataFrame reference. -/
def genObs (g : ModelEntityAspectGeneration) :
    String × List Message × ReviewAnalysis × List String × List String ×
      List String × List String × (String × String) :=
  (g.review, g.messages, g.review_analysis, g.true_entity, g.true_aspect,
    g.predicted_entity, g.predicted_aspect, g.generation)

/-- The observable outcome of the evaluation stage: the two scores and the two
keep-flags. -/
def evalObs (m : ModelEvaluation) : ℚ × ℚ × Bool × Bool :=
  (m.entity_cosine_score, m.aspect_cosine_score,
    m.keep_entity_prediction, m.keep_aspect_prediction)

/-- A two-row DataFrame agreeing with `sampleDF` on row 0. -/
def sampleDF2 : DataFrame :=
  ⟨[⟨"The food is decent", "food", "decent"⟩,
    ⟨"The waitress was slow", "service", "slow"⟩]⟩

/-- A variant of `sampleGen` with different entity fields but the same aspect
fields. -/
def sampleGen3 : ModelEntityAspectGeneration :=
  ⟨sampleDF, reviewString "The food is decent",
    order_messages (reviewString "The food is decent"),
    [("1", ⟨"waitress", ["decent"]⟩)],
    ["service"], ["decent"], ["waitress"], ["decent"], ("waitress", "decent")⟩

/-! ## Helper lemmas -/

/-- A successful `order_chat_messages` run on a frame whose row 0 is `r0`
returns the wrapped review, the six-message transcript of that review, and
some parsed mapping. -/
theorem order_chat_messages_ok_shape
    (create : CompletionRequest → CompletionResponse)
    (parse : String → Option ReviewAnalysis) (df : DataFrame) (r0 : Row)
    (out : String × List Message × ReviewAnalysis)
    (hdf : df.loc0 = some r0)
    (hok : order_chat_messages create parse df = Except.ok out) :
    ∃ ra : ReviewAnalysis,
      out = (reviewString r0.review, order_messages (reviewString r0.review), ra) := by
  rw [order_chat_messages, hdf] at hok
  cases hc : get_completion_from_messages create
      (order_messages (reviewString r0.review)) default_model
      default_frequency_penalty default_n default_temperature
      ResponseFormat.JSON_OBJECT with
  | none => simp [hc] at hok
  | some t =>
    cases hp : parse t with
    | none => simp [hc, hp] at hok
    | some ra =>
      simp only [hc, hp, Except.ok.injEq] at hok
      exact ⟨ra, hok.symm⟩

/-- The shape of a successfully constructed generation object: it stores the
frame, the wrapped review of row 0, the transcript, some parsed mapping, the
true values of row 0 as singletons, and a singleton prediction pair. -/
theorem init_ok_shape
    (create : CompletionRequest → CompletionResponse)
    (parse : String → Option ReviewAnalysis) (df : DataFrame) (r0 : Row)
    (st : ModelEntityAspectGeneration)
    (hdf : df.loc0 = some r0)
    (hok : ModelEntityAspectGeneration.init create parse df = Except.ok st) :
    ∃ (ra : ReviewAnalysis) (e a : String),
      st = ⟨df, reviewString r0.review, order_messages (reviewString r0.review),
        ra, [r0.true_entity], [r0.true_aspect], [e], [a], (e, a)⟩ := by
  rw [ModelEntityAspectGeneration.init] at hok
  cases ho : order_chat_messages create parse df with
  | error err => simp [ho] at hok
  | ok out =>
    obtain ⟨ra, hout⟩ := order_chat_messages_ok_shape create parse df r0 out hdf ho
    subst hout
    rw [ho] at hok
    have htv : extract_true_val df = Except.ok ([r0.true_entity], [r0.true_aspect]) := by
      rw [extract_true_val, hdf]
    rw [htv] at hok
    dsimp only at hok
    cases he : extract_tuple ra with
    | error err => simp [he] at hok
    | ok pred =>
      obtain ⟨e, a⟩ := pred
      simp only [he, Except.ok.injEq] at hok
      exact ⟨ra, e, a, hok.symm⟩

/-- `order_chat_messages` reads the DataFrame only through row 0. -/
theorem order_chat_messages_loc0_congr
    (create : CompletionRequest → CompletionResponse)
    (parse : String → Option ReviewAnalysis) (df₁ df₂ : DataFrame)
    (h : df₁.loc0 = df₂.loc0) :
    order_chat_messages create parse df₁ = order_chat_messages create parse df₂ := by
  rw [order_chat_messages, order_chat_messages, h]

/-- `extract_true_val` reads the DataFrame only through row 0. -/
theorem extract_true_val_loc0_congr (df₁ df₂ : DataFrame)
    (h : df₁.loc0 = df₂.loc0) :
    extract_true_val df₁ = extract_true_val df₂ := by
  rw [extract_true_val, extract_true_val, h]

/-! ## Claims -/

/-- C1: for every cosine score and every threshold, `ModelEvaluation.evaluate`
returns `true` iff the score is greater than or equal to the threshold, and
the default threshold when none is supplied at construction is 0.85. -/
theorem evaluate_accepts_iff_ge_threshold_and_default_085 :
    (∀ (m : ModelEvaluation) (s : ℚ), m.evaluate s = true ↔ s ≥ m.threshold) ∧
    default_threshold_score = 0.85 ∧
    (∀ {ε : Type} (encode : List String → ε) (cos_sim : ε → ε → ℕ → ℕ → ℚ)
      (df : DataFrame) (g : ModelEntityAspectGeneration),
      (ModelEvaluation.initDefault encode cos_sim df g).threshold = 0.85) := by
  refine ⟨?_, rfl, ?_⟩
  · intro m s
    simp [ModelEvaluation.evaluate]
  · intro ε encode cos_sim df g
    rfl

/-- C2: `extract_tuple` reads only the entry at key `"1"`, taking its
`named_entity` and the head of its `aspect` list; any two parsed mappings
agreeing on that projection extract identically (so other keys and aspect
elements past the first have no effect), and the two-pair example yields
exactly `("food", "decent")`. -/
theorem extract_tuple_reads_only_key_one_first_aspect :
    (∀ (ra : ReviewAnalysis) (e a : String) (rest : List String),
      ra.lookup "1" = some ⟨e, a :: rest⟩ →
      extract_tuple ra = Except.ok (e, a)) ∧
    (∀ (ra₁ ra₂ : ReviewAnalysis),
      (ra₁.lookup "1").map (fun entry => (entry.named_entity, entry.aspect.head?)) =
        (ra₂.lookup "1").map (fun entry => (entry.named_entity, entry.aspect.head?)) →
      extract_tuple ra₁ = extract_tuple ra₂) ∧
    extract_tuple
        [("1", ⟨"food", ["decent", "fresh"]⟩), ("2", ⟨"service", ["slow"]⟩)] =
      Except.ok ("food", "decent") := by
  refine ⟨?_, ?_, rfl⟩
  · intro ra e a rest h
    simp [extract_tuple, h]
  · intro ra₁ ra₂ h
    unfold extract_tuple
    cases h₁ : ra₁.lookup "1" with
    | none =>
      cases h₂ : ra₂.lookup "1" with
      | none => rfl
      | some e₂ => rw [h₁, h₂] at h; simp at h
    | some e₁ =>
      cases h₂ : ra₂.lookup "1" with
      | none => rw [h₁, h₂] at h; simp at h
      | some e₂ =>
        rw [h₁, h₂] at h
        simp only [Option.map_some', Option.some.injEq, Prod.mk.injEq] at h
        obtain ⟨hname, hhead⟩ := h
        cases ha₁ : e₁.aspect with
        | nil =>
          cases ha₂ : e₂.aspect with
          | nil => simp [ha₁, ha₂]
          | cons b bs => rw [ha₁, ha₂] at hhead; simp at hhead
        | cons b bs =>
          cases ha₂ : e₂.aspect with
          | nil => rw [ha₁, ha₂] at hhead; simp at hhead
          | cons c cs =>
            rw [ha₁, ha₂] at hhead
            simp only [List.head?_cons, Option.some.injEq] at hhead
            simp [ha₁, ha₂, hname, hhead]

/-- Witness for C2: both hypothesis-bearing conjuncts applied at concrete
parsed mappings. -/
theorem extract_tuple_reads_only_key_one_first_aspect_witness :
    extract_tuple [("1", ⟨"food", ["decent", "fresh"]⟩)] =
        Except.ok ("food", "decent") ∧
    extract_tuple [("1", ⟨"food", ["decent", "fresh"]⟩)] =
      extract_tuple [("1", ⟨"food", ["decent"]⟩), ("2", ⟨"service", ["slow"]⟩)] :=
  ⟨extract_tuple_reads_only_key_one_first_aspect.1
      [("1", ⟨"food", ["decent", "fresh"]⟩)] "food" "decent" ["fresh"] rfl,
    extract_tuple_reads_only_key_one_first_aspect.2.1
      [("1", ⟨"food", ["decent", "fresh"]⟩)]
      [("1", ⟨"food", ["decent"]⟩), ("2", ⟨"service", ["slow"]⟩)] rfl⟩

/-- C4 counterexample: a concrete evaluation constructed with threshold 0
rejects the score -1, which lies in the cosine-similarity interval [-1, 1];
so a threshold of 0.0 does not accept every score of that interval. -/
theorem threshold_zero_rejects_negative_score :
    zeroThresholdEval.threshold = 0 ∧
    (-1 : ℚ) ≥ -1 ∧ (-1 : ℚ) ≤ 1 ∧
    zeroThresholdEval.evaluate (-1) = false := by
  refine ⟨rfl, by norm_num, by norm_num, ?_⟩
  decide

/-- C4 (amended): with the acceptance rule as implemented, a threshold of 0.0
accepts every nonnegative score (in particular every score of [0, 1]) but
rejects every negative score, and a threshold strictly greater than 1.0
rejects every score in [-1, 1]. -/
theorem threshold_zero_accepts_nonneg_above_one_rejects :
    (∀ (m : ModelEvaluation) (s : ℚ), m.threshold = 0 → 0 ≤ s → s ≤ 1 →
      m.evaluate s = true) ∧
    (∀ (m : ModelEvaluation) (s : ℚ), m.threshold = 0 → s < 0 →
      m.evaluate s = false) ∧
    (∀ (m : ModelEvaluation) (s : ℚ), m.threshold > 1 → -1 ≤ s → s ≤ 1 →
      m.evaluate s = false) := by
  refine ⟨?_, ?_, ?_⟩
  · intro m s ht hs _
    have : s ≥ m.threshold := by rw [ht]; exact hs
    simp [ModelEvaluation.evaluate, this]
  · intro m s ht hs
    have : ¬ s ≥ m.threshold := by rw [ht]; exact not_le.mpr hs
    simp [ModelEvaluation.evaluate, this]
  · intro m s ht hlo hhi
    have : ¬ s ≥ m.threshold := not_le.mpr (lt_of_le_of_lt hhi ht)
    simp [ModelEvaluation.evaluate, this]

/-- Witness for the amended C4: the three conjuncts applied at concrete
evaluations with thresholds 0 and 2 and concrete scores. -/
theorem threshold_zero_accepts_nonneg_above_one_rejects_witness :
    zeroThresholdEval.evaluate (1/2) = true ∧
    zeroThresholdEval.evaluate (-1/2) = false ∧
    twoThresholdEval.evaluate (1/2) = false :=
  ⟨threshold_zero_accepts_nonneg_above_one_rejects.1 zeroThresholdEval (1/2)
      (by decide) (by norm_num) (by norm_num),
    threshold_zero_accepts_nonneg_above_one_rejects.2.1 zeroThresholdEval (-1/2)
      (by decide) (by norm_num),
    threshold_zero_accepts_nonneg_above_one_rejects.2.2 twoThresholdEval (1/2)
      (by decide) (by norm_num) (by norm_num)⟩

/-- C3: the extraction stage fails rather than defaulting.  If the completion
text does not parse as a literal mapping, construction aborts with a parse
error; if the parsed mapping lacks key `"1"`, with a key error; if the aspect
list at key `"1"` is empty, with an index error.  In each case
`ModelEntityAspectGeneration.init` returns `Except.error`, so no (entity,
aspect) prediction is produced. -/
theorem init_fails_on_parse_key_and_index_errors :
    (∀ (create : CompletionRequest → CompletionResponse)
       (parse : String → Option ReviewAnalysis) (df : DataFrame)
       (r0 : Row) (t : String),
      df.loc0 = some r0 →
      get_completion_from_messages create (order_messages (reviewString r0.review))
          default_model default_frequency_penalty default_n default_temperature
          ResponseFormat.JSON_OBJECT = some t →
      parse t = none →
      ModelEntityAspectGeneration.init create parse df =
        Except.error PipelineError.parseError) ∧
    (∀ (create : CompletionRequest → CompletionResponse)
       (parse : String → Option ReviewAnalysis) (df : DataFrame)
       (r0 : Row) (t : String) (ra : ReviewAnalysis),
      df.loc0 = some r0 →
      get_completion_from_messages create (order_messages (reviewString r0.review))
          default_model default_frequency_penalty default_n default_temperature
          ResponseFormat.JSON_OBJECT = some t →
      parse t = some ra →
      ra.lookup "1" = none →
      ModelEntityAspectGeneration.init create parse df =
        Except.error (PipelineError.keyError "1")) ∧
    (∀ (create : CompletionRequest → CompletionResponse)
       (parse : String → Option ReviewAnalysis) (df : DataFrame)
       (r0 : Row) (t : String) (ra : ReviewAnalysis) (entry : AnalysisEntry),
      df.loc0 = some r0 →
      get_completion_from_messages create (order_messages (reviewString r0.review))
          default_model default_frequency_penalty default_n default_temperature
          ResponseFormat.JSON_OBJECT = some t →
      parse t = some ra →
      ra.lookup "1" = some entry →
      entry.aspect = [] →
      ModelEntityAspectGeneration.init create parse df =
        Except.error PipelineError.indexError) := by
  refine ⟨?_, ?_, ?_⟩
  · intro create parse df r0 t hdf hc hp
    simp [ModelEntityAspectGeneration.init, order_chat_messages, hdf, hc, hp]
  · intro create parse df r0 t ra hdf hc hp hk
    simp [ModelEntityAspectGeneration.init, order_chat_messages,
      extract_true_val, extract_tuple, hdf, hc, hp, hk]
  · intro create parse df r0 t ra entry hdf hc hp hk ha
    simp [ModelEntityAspectGeneration.init, order_chat_messages,
      extract_true_val, extract_tuple, hdf, hc, hp, hk, ha]

/-- Witness for C3: the three failure cases run on concrete oracles and the
sample row; each aborts with the matching error. -/
theorem init_fails_on_parse_key_and_index_errors_witness :
    ModelEntityAspectGeneration.init sampleCreate failParse sampleDF =
        Except.error PipelineError.parseError ∧
    ModelEntityAspectGeneration.init sampleCreate noKeyParse sampleDF =
        Except.error (PipelineError.keyError "1") ∧
    ModelEntityAspectGeneration.init sampleCreate emptyAspectParse sampleDF =
        Except.error PipelineError.indexError :=
  ⟨init_fails_on_parse_key_and_index_errors.1 sampleCreate failParse sampleDF
      ⟨"The food is decent", "food", "decent"⟩ sampleCompletionText rfl rfl rfl,
    init_fails_on_parse_key_and_index_errors.2.1 sampleCreate noKeyParse sampleDF
      ⟨"The food is decent", "food", "decent"⟩ sampleCompletionText
      [("2", ⟨"service", ["slow"]⟩)] rfl rfl rfl rfl,
    init_fails_on_parse_key_and_index_errors.2.2 sampleCreate emptyAspectParse
      sampleDF ⟨"The food is decent", "food", "decent"⟩ sampleCompletionText
      [("1", ⟨"food", []⟩)] ⟨"food", []⟩ rfl rfl rfl rfl rfl⟩

/-- C5: the extraction stage always builds exactly six messages in the fixed
order system / user (rules) / assistant / user (few-shot examples) /
assistant / user (review); the transcript is the deterministic function
`order_messages` of the fixed template strings and the review text alone, and
the transcript stored by a successful `order_chat_messages` run is that
function applied to row 0's review.  (The twelve few-shot examples live
inside the fixed `user_clarification_prompt` template.) -/
theorem order_chat_messages_builds_six_fixed_messages :
    (∀ (review : String),
      order_messages review =
        [⟨Role.system, system_prompt⟩, ⟨Role.user, initial_user_prompt⟩,
          ⟨Role.assistant, assistant_res_1⟩, ⟨Role.user, user_clarification_prompt⟩,
          ⟨Role.assistant, assistant_res_2⟩, ⟨Role.user, review⟩] ∧
      (order_messages review).length = 6 ∧
      (order_messages review).map Message.role =
        [Role.system, Role.user, Role.assistant, Role.user, Role.assistant,
          Role.user]) ∧
    (∀ (create : CompletionRequest → CompletionResponse)
       (parse : String → Option ReviewAnalysis) (df : DataFrame) (r0 : Row)
       (out : String × List Message × ReviewAnalysis),
      df.loc0 = some r0 →
      order_chat_messages create parse df = Except.ok out →
      out.2.1 = order_messages (reviewString r0.review) ∧
      out.1 = reviewString r0.review) := by
  refine ⟨fun review => ⟨rfl, rfl, rfl⟩, ?_⟩
  intro create parse df r0 out hdf hok
  rw [order_chat_messages, hdf] at hok
  cases hc : get_completion_from_messages create
      (order_messages (reviewString r0.review)) default_model
      default_frequency_penalty default_n default_temperature
      ResponseFormat.JSON_OBJECT with
  | none => simp [hc] at hok
  | some t =>
    cases hp : parse t with
    | none => simp [hc, hp] at hok
    | some ra =>
      simp only [hc, hp, Except.ok.injEq] at hok
      rw [← hok]
      exact ⟨rfl, rfl⟩

/-- Witness for C5: the third conjunct applied to the sample run, whose stored
transcript is the six fixed messages around the sample review. -/
theorem order_chat_messages_builds_six_fixed_messages_witness :
    (reviewString "The food is decent",
        order_messages (reviewString "The food is decent"),
        ([("1", ⟨"food", ["decent"]⟩)] : ReviewAnalysis)).2.1 =
      order_messages (reviewString "The food is decent") ∧
    (reviewString "The food is decent",
        order_messages (reviewString "The food is decent"),
        ([("1", ⟨"food", ["decent"]⟩)] : ReviewAnalysis)).1 =
      reviewString "The food is decent" :=
  order_chat_messages_builds_six_fixed_messages.2 sampleCreate sampleParse
    sampleDF ⟨"The food is decent", "food", "decent"⟩
    (reviewString "The food is decent",
      order_messages (reviewString "The food is decent"),
      [("1", ⟨"food", ["decent"]⟩)]) rfl rfl

/-- C6: `get_completion_from_messages` issues exactly one completion request —
its result is the text content of the first choice of `create` applied to the
single record `buildRequest ...` — and the request the extraction stage
submits carries the JSON-object response format, temperature 0, frequency
penalty 0, one sample, and the default model, with `order_chat_messages`
consuming exactly the response to `extractionRequest`. -/
theorem get_completion_single_request_first_choice :
    (∀ (create : CompletionRequest → CompletionResponse)
       (messages : List Message) (model : String) (frequency_penalty : ℚ)
       (n : ℕ) (temperature : ℚ) (response_format : ResponseFormat),
      get_completion_from_messages create messages model frequency_penalty n
          temperature response_format =
        ((create (buildRequest messages model frequency_penalty n temperature
          response_format)).choices.head?).map Choice.content) ∧
    (∀ (review : String),
      (extractionRequest review).response_format = ResponseFormat.JSON_OBJECT ∧
      (extractionRequest review).temperature = 0 ∧
      (extractionRequest review).frequency_penalty = 0 ∧
      (extractionRequest review).n = 1 ∧
      (extractionRequest review).model = default_model ∧
      (extractionRequest review).messages = order_messages review) ∧
    (∀ (create : CompletionRequest → CompletionResponse)
       (parse : String → Option ReviewAnalysis) (df : DataFrame) (r0 : Row),
      df.loc0 = some r0 →
      order_chat_messages create parse df =
        match ((create (extractionRequest (reviewString r0.review))).choices.head?).map
            Choice.content with
        | none => Except.error PipelineError.choicesIndexError
        | some text =>
          match parse text with
          | none => Except.error PipelineError.parseError
          | some ra => Except.ok (reviewString r0.review,
              order_messages (reviewString r0.review), ra)) := by
  refine ⟨fun _ _ _ _ _ _ _ => rfl,
    fun review => ⟨rfl, rfl, rfl, rfl, rfl, rfl⟩, ?_⟩
  intro create parse df r0 hdf
  rw [order_chat_messages, hdf]
  rfl

/-- Witness for C6: the third conjunct applied to the sample run. -/
theorem get_completion_single_request_first_choice_witness :
    order_chat_messages sampleCreate sampleParse sampleDF =
      match ((sampleCreate (extractionRequest
          (reviewString "The food is decent"))).choices.head?).map
          Choice.content with
      | none => Except.error PipelineError.choicesIndexError
      | some text =>
        match sampleParse text with
        | none => Except.error PipelineError.parseError
        | some ra => Except.ok (reviewString "The food is decent",
            order_messages (reviewString "The food is decent"), ra) :=
  get_completion_single_request_first_choice.2.2 sampleCreate sampleParse
    sampleDF ⟨"The food is decent", "food", "decent"⟩ rfl

/-- C7: the pipeline reads only row 0.  A successful generation stores row 0's
wrapped review and its true entity and aspect as singletons; two frames with
the same row 0 produce generation results equal in every attribute except the
stored frame reference; and the evaluation results never depend on the frame
at all. -/
theorem pipeline_reads_only_row_zero :
    (∀ (create : CompletionRequest → CompletionResponse)
       (parse : String → Option ReviewAnalysis) (df : DataFrame) (r0 : Row)
       (st : ModelEntityAspectGeneration),
      df.loc0 = some r0 →
      ModelEntityAspectGeneration.init create parse df = Except.ok st →
      st.review = reviewString r0.review ∧
      st.true_entity = [r0.true_entity] ∧
      st.true_aspect = [r0.true_aspect]) ∧
    (∀ (create : CompletionRequest → CompletionResponse)
       (parse : String → Option ReviewAnalysis) (df₁ df₂ : DataFrame),
      df₁.loc0 = df₂.loc0 →
      Except.map genObs (ModelEntityAspectGeneration.init create parse df₁) =
        Except.map genObs (ModelEntityAspectGeneration.init create parse df₂)) ∧
    (∀ {ε : Type} (encode : List String → ε) (cos_sim : ε → ε → ℕ → ℕ → ℚ)
       (df₁ df₂ : DataFrame) (g : ModelEntityAspectGeneration) (θ : ℚ),
      evalObs (ModelEvaluation.init encode cos_sim df₁ g θ) =
        evalObs (ModelEvaluation.init encode cos_sim df₂ g θ)) := by
  refine ⟨?_, ?_, ?_⟩
  · intro create parse df r0 st hdf hok
    obtain ⟨ra, e, a, hst⟩ := init_ok_shape create parse df r0 st hdf hok
    subst hst
    exact ⟨rfl, rfl, rfl⟩
  · intro create parse df₁ df₂ h
    rw [ModelEntityAspectGeneration.init, ModelEntityAspectGeneration.init,
      order_chat_messages_loc0_congr create parse df₁ df₂ h,
      extract_true_val_loc0_congr df₁ df₂ h]
    cases order_chat_messages create parse df₂ with
    | error err => rfl
    | ok out =>
      obtain ⟨review, messages, ra⟩ := out
      dsimp only
      cases extract_true_val df₂ with
      | error err => rfl
      | ok tv =>
        obtain ⟨te, ta⟩ := tv
        dsimp only
        cases extract_tuple ra with
        | error err => rfl
        | ok pred => rfl
  · intro ε encode cos_sim df₁ df₂ g θ
    rfl

/-- Witness for C7: the sample run stores row 0's values; a one-row frame and
a two-row frame with the same row 0 give the same observable generation; the
evaluation observables ignore the frame. -/
theorem pipeline_reads_only_row_zero_witness :
    (sampleGen.review = reviewString "The food is decent" ∧
      sampleGen.true_entity = ["food"] ∧
      sampleGen.true_aspect = ["decent"]) ∧
    Except.map genObs (ModelEntityAspectGeneration.init sampleCreate sampleParse sampleDF) =
      Except.map genObs (ModelEntityAspectGeneration.init sampleCreate sampleParse sampleDF2) ∧
    evalObs (ModelEvaluation.init unitEncode oneCosSim sampleDF sampleGen 0) =
      evalObs (ModelEvaluation.init unitEncode oneCosSim sampleDF2 sampleGen 0) :=
  ⟨pipeline_reads_only_row_zero.1 sampleCreate sampleParse sampleDF
      ⟨"The food is decent", "food", "decent"⟩ sampleGen rfl rfl,
    pipeline_reads_only_row_zero.2.1 sampleCreate sampleParse sampleDF
      sampleDF2 rfl,
    pipeline_reads_only_row_zero.2.2 unitEncode oneCosSim sampleDF sampleDF2
      sampleGen 0⟩

/-- C8: each stored similarity score is the scalar at position (0, 0) of the
cosine-similarity matrix of the embeddings of its own true/predicted
one-element lists, each keep-flag is determined by its own score and the
threshold, and neither the entity score and flag nor the aspect score and
flag depend on the other field's values. -/
theorem cosine_scores_per_field_and_independent :
    (∀ {ε : Type} (encode : List String → ε) (cos_sim : ε → ε → ℕ → ℕ → ℚ)
       (df : DataFrame) (g : ModelEntityAspectGeneration) (θ : ℚ),
      (ModelEvaluation.init encode cos_sim df g θ).entity_cosine_score =
        cos_sim (encode g.true_entity) (encode g.predicted_entity) 0 0 ∧
      (ModelEvaluation.init encode cos_sim df g θ).aspect_cosine_score =
        cos_sim (encode g.true_aspect) (encode g.predicted_aspect) 0 0 ∧
      (ModelEvaluation.init encode cos_sim df g θ).keep_entity_prediction =
        (if cos_sim (encode g.true_entity) (encode g.predicted_entity) 0 0 ≥ θ
          then true else false) ∧
      (ModelEvaluation.init encode cos_sim df g θ).keep_aspect_prediction =
        (if cos_sim (encode g.true_aspect) (encode g.predicted_aspect) 0 0 ≥ θ
          then true else false)) ∧
    (∀ {ε : Type} (encode : List String → ε) (cos_sim : ε → ε → ℕ → ℕ → ℚ)
       (df₁ df₂ : DataFrame) (g₁ g₂ : ModelEntityAspectGeneration) (θ : ℚ),
      g₁.true_entity = g₂.true_entity →
      g₁.predicted_entity = g₂.predicted_entity →
      (ModelEvaluation.init encode cos_sim df₁ g₁ θ).entity_cosine_score =
        (ModelEvaluation.init encode cos_sim df₂ g₂ θ).entity_cosine_score ∧
      (ModelEvaluation.init encode cos_sim df₁ g₁ θ).keep_entity_prediction =
        (ModelEvaluation.init encode cos_sim df₂ g₂ θ).keep_entity_prediction) ∧
    (∀ {ε : Type} (encode : List String → ε) (cos_sim : ε → ε → ℕ → ℕ → ℚ)
       (df₁ df₂ : DataFrame) (g₁ g₂ : ModelEntityAspectGeneration) (θ : ℚ),
      g₁.true_aspect = g₂.true_aspect →
      g₁.predicted_aspect = g₂.predicted_aspect →
      (ModelEvaluation.init encode cos_sim df₁ g₁ θ).aspect_cosine_score =
        (ModelEvaluation.init encode cos_sim df₂ g₂ θ).aspect_cosine_score ∧
      (ModelEvaluation.init encode cos_sim df₁ g₁ θ).keep_aspect_prediction =
        (ModelEvaluation.init encode cos_sim df₂ g₂ θ).keep_aspect_prediction) := by
  refine ⟨fun _ _ _ _ _ => ⟨rfl, rfl, rfl, rfl⟩, ?_, ?_⟩
  · intro ε encode cos_sim df₁ df₂ g₁ g₂ θ h1 h2
    constructor
    · show cos_sim (encode g₁.true_entity) (encode g₁.predicted_entity) 0 0 =
        cos_sim (encode g₂.true_entity) (encode g₂.predicted_entity) 0 0
      rw [h1, h2]
    · show (if cos_sim (encode g₁.true_entity) (encode g₁.predicted_entity) 0 0 ≥ θ
          then true else false) =
        (if cos_sim (encode g₂.true_entity) (encode g₂.predicted_entity) 0 0 ≥ θ
          then true else false)
      rw [h1, h2]
  · intro ε encode cos_sim df₁ df₂ g₁ g₂ θ h1 h2
    constructor
    · show cos_sim (encode g₁.true_aspect) (encode g₁.predicted_aspect) 0 0 =
        cos_sim (encode g₂.true_aspect) (encode g₂.predicted_aspect) 0 0
      rw [h1, h2]
    · show (if cos_sim (encode g₁.true_aspect) (encode g₁.predicted_aspect) 0 0 ≥ θ
          then true else false) =
        (if cos_sim (encode g₂.true_aspect) (encode g₂.predicted_aspect) 0 0 ≥ θ
          then true else false)
      rw [h1, h2]

/-- Witness for C8: the independence conjuncts applied to concrete generation
objects differing only in the other field's values. -/
theorem cosine_scores_per_field_and_independent_witness :
    ((ModelEvaluation.init unitEncode oneCosSim sampleDF sampleGen 0).entity_cosine_score =
        (ModelEvaluation.init unitEncode oneCosSim sampleDF2 sampleGen2 0).entity_cosine_score ∧
      (ModelEvaluation.init unitEncode oneCosSim sampleDF sampleGen 0).keep_entity_prediction =
        (ModelEvaluation.init unitEncode oneCosSim sampleDF2 sampleGen2 0).keep_entity_prediction) ∧
    ((ModelEvaluation.init unitEncode oneCosSim sampleDF sampleGen 0).aspect_cosine_score =
        (ModelEvaluation.init unitEncode oneCosSim sampleDF2 sampleGen3 0).aspect_cosine_score ∧
      (ModelEvaluation.init unitEncode oneCosSim sampleDF sampleGen 0).keep_aspect_prediction =
        (ModelEvaluation.init unitEncode oneCosSim sampleDF2 sampleGen3 0).keep_aspect_prediction) :=
  ⟨cosine_scores_per_field_and_independent.2.1 unitEncode oneCosSim sampleDF
      sampleDF2 sampleGen sampleGen2 0 rfl rfl,
    cosine_scores_per_field_and_independent.2.2 unitEncode oneCosSim sampleDF
      sampleDF2 sampleGen sampleGen3 0 rfl rfl⟩

/-- C9: every successfully constructed generation object has singleton
predicted and true entity/aspect lists and a generation tuple equal to the
pair of the singleton predictions; construction is the only operation
producing or changing these fields. -/
theorem generation_singleton_invariant :
    ∀ (create : CompletionRequest → CompletionResponse)
      (parse : String → Option ReviewAnalysis) (df : DataFrame)
      (st : ModelEntityAspectGeneration),
      ModelEntityAspectGeneration.init create parse df = Except.ok st →
      st.predicted_entity.length = 1 ∧ st.predicted_aspect.length = 1 ∧
      st.true_entity.length = 1 ∧ st.true_aspect.length = 1 ∧
      ∃ e a, st.predicted_entity = [e] ∧ st.predicted_aspect = [a] ∧
        st.generation = (e, a) := by
  intro create parse df st hok
  cases h0 : df.loc0 with
  | none =>
    rw [ModelEntityAspectGeneration.init, order_chat_messages, h0] at hok
    simp at hok
  | some r0 =>
    obtain ⟨ra, e, a, hst⟩ := init_ok_shape create parse df r0 st h0 hok
    subst hst
    exact ⟨rfl, rfl, rfl, rfl, e, a, rfl, rfl, rfl⟩

/-- Witness for C9: the invariant instantiated on the sample run, whose
successful construction is checked by evaluation. -/
theorem generation_singleton_invariant_witness :
    sampleGen.predicted_entity.length = 1 ∧
    sampleGen.predicted_aspect.length = 1 ∧
    sampleGen.true_entity.length = 1 ∧ sampleGen.true_aspect.length = 1 ∧
    ∃ e a, sampleGen.predicted_entity = [e] ∧
      sampleGen.predicted_aspect = [a] ∧ sampleGen.generation = (e, a) :=
  generation_singleton_invariant sampleCreate sampleParse sampleDF sampleGen rfl

/-- C10: constructing a `ModelEvaluation` leaves its inputs unchanged — the
stored frame, generation object (with all its fields) and threshold are
exactly the ones passed in; only the four result fields are computed. -/
theorem evaluation_preserves_inputs :
    ∀ {ε : Type} (encode : List String → ε) (cos_sim : ε → ε → ℕ → ℕ → ℚ)
      (df : DataFrame) (g : ModelEntityAspectGeneration) (θ : ℚ),
      (ModelEvaluation.init encode cos_sim df g θ).df = df ∧
      (ModelEvaluation.init encode cos_sim df g θ).model_gen_object = g ∧
      (ModelEvaluation.init encode cos_sim df g θ).threshold = θ :=
  fun _ _ _ _ _ => ⟨rfl, rfl, rfl⟩
